import Mathlib

set_option linter.unusedVariables false

/- Verification of the Galaxy object-store layer: a shallow embedding of
`lib/galaxy/objectstore/__init__.py` (path construction, disk backend
operations, distributed dispatch, the capacity monitor and the per-user
plugged-media resolver).  Filesystem paths are lists of characters and the
POSIX path primitives (`os.path.join`, `os.path.normpath`, `os.path.abspath`)
are modelled after CPython's `posixpath` module. -/

abbrev Str := List Char

/-- Python `str.split('/')`: split a character list at every slash, keeping
empty pieces, never returning an empty list of pieces. -/
def splitSlash : Str → List Str
  | [] => [[]]
  | c :: cs =>
    match splitSlash cs with
    | [] => [[]]
    | h :: t => if c = '/' then [] :: h :: t else (c :: h) :: t

/-- Python `'/'.join(comps)`. -/
def joinComps : List Str → Str
  | [] => []
  | c :: cs =>
    match cs with
    | [] => c
    | _ :: _ => c ++ '/' :: joinComps cs

/-- Number of initial slashes retained by `posixpath.normpath`: one or two
initial slashes are kept (POSIX allows exactly two), three or more collapse
to one. -/
def slashCount (p : Str) : Nat :=
  if p.head? = some '/' then
    if (p.drop 1).head? = some '/' ∧ (p.drop 2).head? ≠ some '/' then 2 else 1
  else 0

/-- One iteration of the component loop inside `posixpath.normpath`: skip
empty and `.` components, append ordinary components, and make `..` either
append (relative prefix) or pop the previous component. -/
def normStep (initial : Bool) (acc : List Str) (comp : Str) : List Str :=
  if comp = [] ∨ comp = ['.'] then acc
  else if comp ≠ ['.', '.'] ∨ (initial = false ∧ acc = []) ∨
      (acc ≠ [] ∧ acc.getLast? = some ['.', '.']) then acc ++ [comp]
  else if acc ≠ [] then acc.dropLast
  else acc

/-- Assemble the output of `posixpath.normpath` from the initial-slash
count and the processed components (`return path or dot`). -/
def normOut (k : Nat) (comps : List Str) : Str :=
  if List.replicate k '/' ++ joinComps comps = [] then ['.']
  else List.replicate k '/' ++ joinComps comps

/-- `posixpath.normpath`. -/
def pyNormpath (p : Str) : Str :=
  if p = [] then ['.']
  else
    normOut (slashCount p)
      ((splitSlash p).foldl (normStep (decide (0 < slashCount p))) [])

/-- `posixpath.join` on two components. -/
def pyJoin (a b : Str) : Str :=
  if b.head? = some '/' then b
  else if a = [] ∨ a.getLast? = some '/' then a ++ b
  else a ++ '/' :: b

/-- `posixpath.join(*parts)` for a non-empty argument list. -/
def pyJoinList : List Str → Str
  | [] => []
  | c :: cs => cs.foldl pyJoin c

/-- `posixpath.abspath`, with the process working directory passed
explicitly (Python guarantees `os.getcwd()` is absolute). -/
def pyAbspath (cwd p : Str) : Str :=
  if p.head? = some '/' then pyNormpath p else pyNormpath (pyJoin cwd p)

/-- Break a character list into chunks of three (the input is padded to a
multiple of three before this is called). -/
def chunk3 : Str → List Str
  | a :: b :: c :: rest => [a, b, c] :: chunk3 rest
  | [] => []
  | l => [l]

/-- Modelled from the spec: `galaxy.util.directory_hash_id` is imported by
the object store module but its definition is not under `src/`.  Per the
spec (sections 3, 6 and 8): ids 0-999 shard to `000`; a longer decimal id
is zero-padded on the left to a multiple of three characters and grouped
into 3-character chunks from the left (id=1234 maps to 001/234, id=1234567
maps to 001/234/567).  The argument is the decimal representation
(`str(id)` in the source). -/
def directory_hash_id (s : Str) : List Str :=
  if s.length < 4 then [['0', '0', '0']]
  else chunk3 (List.replicate ((3 - s.length % 3) % 3) '0' ++ s)

/-- Modelled from the spec: `galaxy.util.path.safe_relpath` is imported by
the object store module but its definition is not under `src/`.  Per the
spec (sections 4.1 and 9, "safe relative path" check): normalize the path,
then require that the result does not start with `..` and contains no `..`
segment. -/
def safe_relpath (p : Str) : Bool :=
  let n := pyNormpath p
  !(decide (n.take 2 = ['.', '.']) || (splitSlash n).any (fun c => decide (c = ['.', '.'])))

/-- Python exceptions surfaced by the object-store layer.  `appError` stands
for the bare `Exception` raised by the plugged-media resolver. -/
inductive PyExc where
  | objectInvalid
  | objectNotFound
  | assertionError
  | noSession
  | keyError
  | appError
deriving DecidableEq

/-- Configuration of a `DiskObjectStore`: its files root, the `extra_dirs`
mapping, the `check_old_style` flag and the process working directory used
by `os.path.abspath`.  The embedding fixes `store_by = "id"` (the default
used by every claim). -/
structure DiskConf where
  file_path : Str
  extra_dirs : List (Str × Str)
  check_old_style : Bool
  cwd : Str

/-- The slice of a Galaxy `StorableObject` consumed by the object store:
the database id (`store_by = "id"`) and the placement hint. -/
structure StorableObject where
  oid : Option Nat
  objectStoreId : Option String
deriving DecidableEq

/-- The option flags threaded through every path-construction call. -/
structure CPOpts where
  baseDir : Option Str
  dirOnly : Bool
  extraDir : Option Str
  extraDirAtRoot : Bool
  altName : Option Str
  objDir : Bool
deriving DecidableEq

def defaultOpts : CPOpts := ⟨none, false, none, false, none, false⟩

/-- `ObjectStore._get_object_id` with `store_by = "id"`. -/
def get_object_id (obj : StorableObject) : Option Nat := obj.oid

/-- Python `str(obj_id)`: decimal digits for an integer id, the string
`None` for an absent one. -/
def idRepr : Option Nat → Str
  | some n => (Nat.repr n).toList
  | none => "None".toList

/-- `self.extra_dirs.get(base_dir, self.file_path)`: `None` is never a key
of the mapping, so it selects the default. -/
def lookupExtraDir (ed : List (Str × Str)) (k : Option Str) (dflt : Str) : Str :=
  match k with
  | none => dflt
  | some key =>
    match ed.lookup key with
    | some v => v
    | none => dflt

/-- The `extra_dir` validation in `DiskObjectStore._construct_path`: a
truthy `extra_dir` differing from its normalized form is rejected. -/
def extraDirBad : Option Str → Bool
  | none => false
  | some s => decide (s ≠ []) && decide (s ≠ pyNormpath s)

/-- The `alt_name` validation in `DiskObjectStore._construct_path`: a
truthy `alt_name` failing `safe_relpath` is rejected. -/
def altNameBad : Option Str → Bool
  | none => false
  | some s => decide (s ≠ []) && !safe_relpath s

def datasetLeaf (n : Nat) : Str :=
  "dataset_".toList ++ (Nat.repr n).toList ++ ".dat".toList

/-- `DiskObjectStore._construct_path`. -/
def construct_path (conf : DiskConf) (obj : StorableObject) (old_style : Bool)
    (o : CPOpts) : Except PyExc Str :=
  let base := pyAbspath conf.cwd (lookupExtraDir conf.extra_dirs o.baseDir conf.file_path)
  if extraDirBad o.extraDir then .error .objectInvalid
  else if altNameBad o.altName then .error .objectInvalid
  else
    let obj_id := get_object_id obj
    let path :=
      if old_style then
        match o.extraDir with
        | some e => pyJoin base e
        | none => base
      else
        let rel0 := pyJoinList (directory_hash_id (idRepr obj_id))
        let rel1 := if o.objDir then pyJoin rel0 (idRepr obj_id) else rel0
        let rel2 :=
          match o.extraDir with
          | some e => if o.extraDirAtRoot then pyJoin e rel1 else pyJoin rel1 e
          | none => rel1
        pyJoin base rel2
    if o.dirOnly then .ok (pyAbspath conf.cwd path)
    else
      match obj_id with
      | none => .error .assertionError
      | some n =>
        let leaf :=
          match o.altName with
          | some a => if a ≠ [] then a else datasetLeaf n
          | none => datasetLeaf n
        .ok (pyAbspath conf.cwd (pyJoin path leaf))

/-- Abstract filesystem model for the disk backend.  `pexists` is
`os.path.exists`; `getsize` is `os.path.getsize`, where `none` models an
`OSError`; `removeOk`/`rmtreeOk` tell whether `os.remove`/`shutil.rmtree`
succeed or raise an `OSError`; `islink`/`readlink` model
`os.path.islink`/`os.readlink`. -/
structure FS where
  pexists : Str → Bool
  getsize : Str → Option Nat
  removeOk : Str → Bool
  rmtreeOk : Str → Bool
  islink : Str → Bool
  readlink : Str → Str

/-- Filesystem side effects recorded by the disk backend operations. -/
inductive DiskEv where
  | createdFile (p : Str)
  | madeDir (p : Str)
  | copied (src dst : Str)
  | symlinked (target dst : Str)
deriving DecidableEq

/-- `DiskObjectStore.exists`: with `check_old_style`, probe the legacy
unsharded path first, then the sharded path. -/
def disk_exists (conf : DiskConf) (fs : FS) (obj : StorableObject) (o : CPOpts) :
    Except PyExc Bool :=
  if conf.check_old_style then
    match construct_path conf obj true o with
    | .error e => .error e
    | .ok p =>
      if fs.pexists p then .ok true
      else
        match construct_path conf obj false o with
        | .error e => .error e
        | .ok q => .ok (fs.pexists q)
  else
    match construct_path conf obj false o with
    | .error e => .error e
    | .ok q => .ok (fs.pexists q)

/-- `DiskObjectStore.get_filename`: same dual probe as `exists`; raises
`ObjectNotFound` when neither path exists. -/
def disk_get_filename (conf : DiskConf) (fs : FS) (obj : StorableObject) (o : CPOpts) :
    Except PyExc Str :=
  if conf.check_old_style then
    match construct_path conf obj true o with
    | .error e => .error e
    | .ok p =>
      if fs.pexists p then .ok p
      else
        match construct_path conf obj false o with
        | .error e => .error e
        | .ok q => if fs.pexists q then .ok q else .error .objectNotFound
  else
    match construct_path conf obj false o with
    | .error e => .error e
    | .ok q => if fs.pexists q then .ok q else .error .objectNotFound

/-- Record a newly created empty file in the filesystem model. -/
def fsAddFile (fs : FS) (p : Str) : FS :=
  { fs with
    pexists := fun q => decide (q = p) || fs.pexists q,
    getsize := fun q => if q = p then some 0 else fs.getsize q }

/-- Record a newly created directory in the filesystem model. -/
def fsAddDir (fs : FS) (p : Str) : FS :=
  { fs with pexists := fun q => decide (q = p) || fs.pexists q }

/-- `shutil.copy` followed by `umask_fix_perms`: the destination now exists
with the source's size. -/
def fsCopy (fs : FS) (src dst : Str) : FS :=
  { fs with
    pexists := fun q => decide (q = dst) || fs.pexists q,
    getsize := fun q => if q = dst then fs.getsize src else fs.getsize q }

/-- `force_symlink(os.readlink(src), dst)`: the destination becomes a link
with the source's link target. -/
def fsSymlink (fs : FS) (target dst : Str) : FS :=
  { fs with
    pexists := fun q => decide (q = dst) || fs.pexists q,
    islink := fun q => decide (q = dst) || fs.islink q,
    readlink := fun q => if q = dst then target else fs.readlink q }

/-- `DiskObjectStore.create`: when the object is absent, make the parent
directories and (unless `dir_only`) an empty file. -/
def disk_create (conf : DiskConf) (fs : FS) (obj : StorableObject) (o : CPOpts) :
    Except PyExc (FS × List DiskEv) :=
  match disk_exists conf fs obj o with
  | .error e => .error e
  | .ok true => .ok (fs, [])
  | .ok false =>
    match construct_path conf obj false o with
    | .error e => .error e
    | .ok p =>
      if o.dirOnly then .ok (fsAddDir fs p, [.madeDir p])
      else .ok (fsAddFile fs p, [.createdFile p])

/-- `DiskObjectStore.size`: 0 when absent or on a stat error; the 10 ms
retry loop collapses in this pure model (the filesystem does not change
between the two reads). -/
def disk_size (conf : DiskConf) (fs : FS) (obj : StorableObject) (o : CPOpts) :
    Except PyExc Nat :=
  match disk_exists conf fs obj o with
  | .error e => .error e
  | .ok false => .ok 0
  | .ok true =>
    match disk_get_filename conf fs obj o with
    | .error e => .error e
    | .ok p => .ok ((fs.getsize p).getD 0)

/-- `DiskObjectStore.empty`: `size == 0`. -/
def disk_empty (conf : DiskConf) (fs : FS) (obj : StorableObject) (o : CPOpts) :
    Except PyExc Bool :=
  match disk_size conf fs obj o with
  | .error e => .error e
  | .ok n => .ok (decide (n = 0))

/-- Python truthiness of an optional string option. -/
def optTruthy : Option Str → Bool
  | none => false
  | some s => decide (s ≠ [])

/-- `DiskObjectStore.delete`: resolve the path first (outside any handler),
then remove a whole directory or a single file, swallowing `OSError` into a
`False` result. -/
def disk_delete (conf : DiskConf) (fs : FS) (obj : StorableObject)
    (entireDir : Bool) (o : CPOpts) : Except PyExc Bool :=
  match disk_get_filename conf fs obj o with
  | .error e => .error e
  | .ok p =>
    if entireDir && (optTruthy o.extraDir || o.objDir) then
      .ok (fs.rmtreeOk p)
    else
      match disk_exists conf fs obj o with
      | .error e => .error e
      | .ok ex => if ex then .ok (fs.removeOk p) else .ok false

/-- `DiskObjectStore.update_from_file`: optionally `create` first; when the
source is given and the object exists, either replicate a symlink or copy
the source over the object's path. -/
def disk_update_from_file (conf : DiskConf) (fs : FS) (obj : StorableObject)
    (file_name : Option Str) (create : Bool) (preserveSymlinks : Bool)
    (o : CPOpts) : Except PyExc (FS × List DiskEv) :=
  match (if create then disk_create conf fs obj o else .ok (fs, [])) with
  | .error e => .error e
  | .ok (fs1, ev1) =>
    match file_name with
    | none => .ok (fs1, ev1)
    | some fn =>
      if fn = [] then .ok (fs1, ev1)
      else
        match disk_exists conf fs1 obj o with
        | .error e => .error e
        | .ok false => .ok (fs1, ev1)
        | .ok true =>
          match disk_get_filename conf fs1 obj o with
          | .error e => .error e
          | .ok dst =>
            if preserveSymlinks && fs1.islink fn then
              .ok (fsSymlink fs1 (fs1.readlink fn) dst, ev1 ++ [.symlinked (fs1.readlink fn) dst])
            else
              .ok (fsCopy fs1 fn dst, ev1 ++ [.copied fn dst])

/-- Abstract child backend of a `DistributedObjectStore`: only whether it
holds the object under consideration matters for routing. -/
structure DChild where
  cexists : Bool
deriving DecidableEq

/-- Routing side effects of the distributed store. -/
inductive DEv where
  | sessionPersist (id : String)
  | childCall (id : String)
  | childCreate (id : String)
deriving DecidableEq

/-- Scan in `DistributedObjectStore.__get_store_id_for`: find the first
child holding the object, adopt its id onto the object and persist the
assignment through the session hook (`_create_object_in_session`). -/
def dist_scan (bs : List (String × DChild)) (session : Bool) (obj : StorableObject) :
    Except PyExc (Option String × StorableObject) × List DEv :=
  match bs.find? (fun b => b.2.cexists) with
  | some (cid, _) =>
    if session then (.ok (some cid, { obj with objectStoreId := some cid }), [.sessionPersist cid])
    else (.error .noSession, [])
  | none => (.ok (none, obj), [])

/-- `DistributedObjectStore.__get_store_id_for`. -/
def dist_get_store_id_for (bs : List (String × DChild)) (session : Bool)
    (obj : StorableObject) :
    Except PyExc (Option String × StorableObject) × List DEv :=
  match obj.objectStoreId with
  | some sid =>
    if (bs.lookup sid).isSome then (.ok (some sid, obj), [])
    else dist_scan bs session obj
  | none => dist_scan bs session obj

/-- `DistributedObjectStore._call_method`: dispatch to the resolved backend
or produce the default, which for `get_data`, `get_filename` and
`update_from_file` is a raised `ObjectNotFound`.  The returned id names the
backend that received the call. -/
def dist_call_method (bs : List (String × DChild)) (session : Bool)
    (defaultIsException : Bool) (obj : StorableObject) :
    Except PyExc (Option String) × StorableObject × List DEv :=
  match dist_get_store_id_for bs session obj with
  | (.ok (some cid, obj1), evs) => (.ok (some cid), obj1, evs ++ [.childCall cid])
  | (.ok (none, obj1), evs) =>
    if defaultIsException then (.error .objectNotFound, obj1, evs)
    else (.ok none, obj1, evs)
  | (.error e, evs) => (.error e, obj, evs)

/-- `NestedObjectStore.exists` as used by `DistributedObjectStore.create`:
`_call_method('exists', obj, False, False)`. -/
def dist_exists (bs : List (String × DChild)) (session : Bool) (obj : StorableObject) :
    Except PyExc Bool × StorableObject × List DEv :=
  match dist_get_store_id_for bs session obj with
  | (.ok (some cid, obj1), evs) =>
    (.ok (match bs.lookup cid with
          | some c => c.cexists
          | none => false), obj1, evs)
  | (.ok (none, obj1), evs) => (.ok false, obj1, evs)
  | (.error e, evs) => (.error e, obj, evs)

/-- `random.choice(weighted)` with the random draw made explicit: element
`k % len` of the sequence; `none` is the `IndexError` on an empty one. -/
def chooseWeighted (weighted : List String) (k : Nat) : Option String :=
  weighted.get? (k % weighted.length)

/-- Body of `DistributedObjectStore.create` under the outer condition: pick
and persist a backend id if the current one is unusable, then delegate the
creation to `self.backends[obj.object_store_id]`. -/
def dist_create_inner (bs : List (String × DChild)) (weighted : List String)
    (session : Bool) (obj : StorableObject) (k : Nat) (evs : List DEv) :
    Except PyExc StorableObject × List DEv :=
  let needPick : Bool :=
    match obj.objectStoreId with
    | none => true
    | some sid => (bs.lookup sid).isNone
  if needPick then
    match chooseWeighted weighted k with
    | none => (.error .objectInvalid, evs)
    | some cid =>
      if session then
        match bs.lookup cid with
        | some _ => (.ok { obj with objectStoreId := some cid },
                     evs ++ [.sessionPersist cid, .childCreate cid])
        | none => (.error .keyError, evs ++ [.sessionPersist cid])
      else (.error .noSession, evs)
  else
    match obj.objectStoreId with
    | some sid =>
      match bs.lookup sid with
      | some _ => (.ok obj, evs ++ [.childCreate sid])
      | none => (.error .keyError, evs)
    | none => (.error .keyError, evs)

/-- `DistributedObjectStore.create`. -/
def dist_create (bs : List (String × DChild)) (weighted : List String)
    (session : Bool) (obj : StorableObject) (k : Nat) :
    Except PyExc StorableObject × List DEv :=
  match obj.objectStoreId with
  | none => dist_create_inner bs weighted session obj k []
  | some _ =>
    match dist_exists bs session obj with
    | (.ok b, obj1, evs) =>
      if b then (.ok obj1, evs)
      else dist_create_inner bs weighted session obj1 k evs
    | (.error e, _, evs) => (.error e, evs)

/-- Effective capacity cap of a backend in the filesystem monitor:
`self.max_percent_full[id] or self.global_max_percent_full` (Python `or`
treats 0 as falsy).  Percentages are modelled as rationals. -/
def effective_cap (m g : ℚ) : ℚ := if m ≠ 0 then m else g

/-- One backend's step of the monitor loop: drop every occurrence of an
over-full backend's id from the working copy. -/
def tickStep (usage mp : String → ℚ) (g : ℚ) (acc : List String) (i : String) :
    List String :=
  if usage i > effective_cap (mp i) g then acc.filter (fun x => x != i) else acc

/-- One pass of `DistributedObjectStore.__filesystem_monitor`: start from
the original weight sequence and filter out every over-full backend, then
publish the result as the live sequence. -/
def monitor_tick (original : List String) (ids : List String)
    (usage mp : String → ℚ) (g : ℚ) : List String :=
  ids.foldl (tickStep usage mp g) original

/-- A user's plugged medium as consumed by the resolver. -/
structure PluggedMedium where
  mid : Nat
  order : Int
  quota : Int
  usage : Int
deriving DecidableEq

/-- Stable ascending insertion by `order`, modelling
`plugged_media.sort(key=lambda p: p.order)`. -/
def insertByOrder (m : PluggedMedium) : List PluggedMedium → List PluggedMedium
  | [] => [m]
  | x :: xs => if m.order < x.order then m :: x :: xs else x :: insertByOrder m xs

def sortByOrder : List PluggedMedium → List PluggedMedium
  | [] => []
  | m :: ms => insertByOrder m (sortByOrder ms)

/-- Outcome of the index-walking loop in `pick_a_plugged_media`. -/
inductive PickRes where
  | found (m : PluggedMedium)
  | choseNone
  | exhausted
deriving DecidableEq

/-- One iteration of the loop in `pick_a_plugged_media` for the medium at
the current index; `next` is the continuation for the next lower index. -/
def pickStep (m : PluggedMedium) (fo size : Int) (enough : Bool)
    (next : PickRes) : PickRes :=
  if (fo ≥ m.order ∧ m.order > 0) ∨ (fo ≤ m.order ∧ m.order < -1) then
    if m.usage + size ≤ m.quota then .found m else next
  else
    if enough then .choseNone
    else if m.usage + size ≤ m.quota then .found m else next

/-- The loop of `pick_a_plugged_media`, walking indices from `j` down
to 0. -/
def pickLoop (l : List PluggedMedium) (fo size : Int) (enough : Bool) :
    Nat → PickRes
  | 0 =>
    match l.get? 0 with
    | some m => pickStep m fo size enough .exhausted
    | none => .exhausted
  | j + 1 =>
    match l.get? (j + 1) with
    | some m => pickStep m fo size enough (pickLoop l fo size enough j)
    | none => pickLoop l fo size enough j

def dummyMedium : PluggedMedium := ⟨0, 0, 0, 0⟩

/-- `UserObjectStore.pick_a_plugged_media`: sort the media by order, set the
cursor, walk from the highest order downwards, and afterwards either return
`None` or raise (`appError`) depending on the instance-level quota flag and
the last medium's quota (a fall-through returns `None` in Python). -/
def pick_a_plugged_media (pm : List PluggedMedium) (from_order : Option Int)
    (size : Int) (enough : Bool) : Except PyExc (Option PluggedMedium) :=
  if pm.length = 0 then .ok none
  else
    let sorted := sortByOrder pm
    let fo : Int :=
      match from_order with
      | some f => f - 1
      | none => (sorted.getLastD dummyMedium).order
    match pickLoop sorted fo size enough (sorted.length - 1) with
    | .found m => .ok (some m)
    | .choseNone => .ok none
    | .exhausted =>
      if enough then .ok none
      else if (sorted.getLastD dummyMedium).usage + size ≤ (sorted.getLastD dummyMedium).quota then
        .error .appError
      else .ok none

/-- Dispatch events of the user-media wrapper: a requested-method call on a
medium's backend, or the instance-default `self.backends[0].create`. -/
inductive UEv where
  | dispatchMethod (id : Nat)
  | dispatchCreate (id : Nat)
deriving DecidableEq

/-- The retry loop of `UserObjectStore._method_call`: at most `1 +
len(media)` iterations; each picks a medium (exceptions from the picker are
logged and skipped), dispatches the requested method (`bm`) on its backend
and breaks on success, lowering the cursor on failure; a `None` pick sets
the cursor to 0 and calls `create` (`bc`) on `self.backends[0]`, a lookup
that raises `KeyError` when no medium has id 0 (caught by the generic
handler).  The first component is `rtv`, never assigned on the
instance-default branch. -/
def umc_loop (media : List PluggedMedium) (enough : Bool)
    (bm bc : Nat → Except Unit Unit) : Nat → Option Int → Option Unit × List UEv
  | 0, _ => (none, [])
  | i + 1, fo =>
    match pick_a_plugged_media media fo 0 enough with
    | .error _ => umc_loop media enough bm bc i fo
    | .ok (some m) =>
      match bm m.mid with
      | .ok _ => (some (), [.dispatchMethod m.mid])
      | .error _ =>
        ((umc_loop media enough bm bc i (some m.order)).1,
         .dispatchMethod m.mid :: (umc_loop media enough bm bc i (some m.order)).2)
    | .ok none =>
      if media.any (fun mm => mm.mid = 0) then
        match bc 0 with
        | .ok _ => (none, [.dispatchCreate 0])
        | .error _ =>
          ((umc_loop media enough bm bc i (some 0)).1,
           .dispatchCreate 0 :: (umc_loop media enough bm bc i (some 0)).2)
      else umc_loop media enough bm bc i (some 0)

/-- `UserObjectStore._method_call`. -/
def user_method_call (media : List PluggedMedium) (enough : Bool)
    (bm bc : Nat → Except Unit Unit) : Option Unit × List UEv :=
  umc_loop media enough bm bc (1 + media.length) none

/-- Fixture: a disk backend rooted at `/data` with working directory
`/cwd`, no extra dirs, no legacy probing. -/
def conf0 : DiskConf := ⟨"/data".toList, [], false, "/cwd".toList⟩

/-- Fixture: object with database id 1 and no placement hint. -/
def obj1 : StorableObject := ⟨some 1, none⟩

/-- Fixture: an empty filesystem on which removals would succeed. -/
def fs0 : FS := ⟨fun _ => false, fun _ => none, fun _ => true, fun _ => true,
  fun _ => false, fun _ => []⟩

/-- Fixture: a filesystem on which every path exists and removals
succeed. -/
def fsAll : FS := ⟨fun _ => true, fun _ => some 7, fun _ => true, fun _ => true,
  fun _ => false, fun _ => []⟩

/-- Fixture: the order=1 plugged medium of spec scenario 6 (quota 1000,
usage 900). -/
def mediumHigh : PluggedMedium := ⟨1, 1, 1000, 900⟩

/-- Fixture: the order=-1 plugged medium of spec scenario 6 (quota 1000,
usage 0). -/
def mediumLow : PluggedMedium := ⟨2, -1, 1000, 0⟩

/-- Fixture: backend behaviour for spec scenario 6 — the requested method
raises `IOError` on the order=1 medium's backend and succeeds elsewhere. -/
def bmScenario : Nat → Except Unit Unit := fun i => if i = 1 then .error () else .ok ()

def bcOk : Nat → Except Unit Unit := fun _ => .ok ()

instance {ε α : Type} [DecidableEq ε] [DecidableEq α] : DecidableEq (Except ε α) := fun x y =>
  match x, y with
  | .ok a, .ok b => decidable_of_iff (a = b) (by simp)
  | .error a, .error b => decidable_of_iff (a = b) (by simp)
  | .ok _, .error _ => isFalse (by simp)
  | .error _, .ok _ => isFalse (by simp)

/-- Fixture: usage percents with backend `b` over-full. -/
def usageOver : String → ℚ := fun s => if s = "b" then 99 else 50

/-- Fixture: usage percents with every backend under the cap. -/
def usageUnder : String → ℚ := fun _ => 50

/-- Fixture: no per-backend caps (Python `or` then selects the global one). -/
def capsZero : String → ℚ := fun _ => 0

/-- Fixture: two distributed children of which only `b` holds the object. -/
def bsPair : List (String × DChild) := [("a", ⟨false⟩), ("b", ⟨true⟩)]

/-- Fixture: a single distributed child not holding the object. -/
def bsNone : List (String × DChild) := [("a", ⟨false⟩)]

/-- Fixture: object with id 5, no placement hint. -/
def objFive : StorableObject := ⟨some 5, none⟩

/-- Fixture: options carrying the normalized-but-escaping extra dir. -/
def optsDotDot : CPOpts := ⟨none, false, some "../../x".toList, false, none, false⟩

/-- Fixture: options carrying a non-normalized extra dir. -/
def optsNonNorm : CPOpts := ⟨none, false, some "a/..".toList, false, none, false⟩

theorem splitSlash_nil : splitSlash [] = [[]] := rfl

theorem splitSlash_cons (c : Char) (cs : Str) :
    splitSlash (c :: cs) =
      match splitSlash cs with
      | [] => [[]]
      | h :: t => if c = '/' then [] :: h :: t else (c :: h) :: t := rfl

theorem splitSlash_ne_nil (l : Str) : splitSlash l ≠ [] := by
  cases l with
  | nil => simp [splitSlash_nil]
  | cons c cs =>
    rw [splitSlash_cons]
    rcases splitSlash cs with _ | ⟨h1, t⟩
    · simp
    · by_cases hc : c = '/' <;> simp [hc]

theorem splitSlash_append (a b : Str) :
    splitSlash (a ++ '/' :: b) = splitSlash a ++ splitSlash b := by
  induction a with
  | nil =>
    rw [List.nil_append, splitSlash_cons, splitSlash_nil]
    rcases h : splitSlash b with _ | ⟨h1, t⟩
    · exact absurd h (splitSlash_ne_nil b)
    · simp
  | cons c a ih =>
    rw [List.cons_append, splitSlash_cons, ih, splitSlash_cons]
    rcases h : splitSlash a with _ | ⟨h1, t⟩
    · exact absurd h (splitSlash_ne_nil a)
    · by_cases hc : c = '/' <;> simp [hc]

theorem splitSlash_no_slash (c : Str) (h : ('/' : Char) ∉ c) : splitSlash c = [c] := by
  induction c with
  | nil => rfl
  | cons d c ih =>
    have hd : ¬ d = '/' := fun hh => h (by simp [hh])
    have hc : ('/' : Char) ∉ c := fun hm => h (List.mem_cons_of_mem _ hm)
    rw [splitSlash_cons, ih hc]
    simp [hd]

theorem joinComps_cons_cons (c d : Str) (cs : List Str) :
    joinComps (c :: d :: cs) = c ++ '/' :: joinComps (d :: cs) := rfl

theorem joinComps_append (L R : List Str) (hL : L ≠ []) (hR : R ≠ []) :
    joinComps (L ++ R) = joinComps L ++ '/' :: joinComps R := by
  induction L with
  | nil => exact absurd rfl hL
  | cons c L ih =>
    cases L with
    | nil =>
      cases R with
      | nil => exact absurd rfl hR
      | cons r R' => simp [joinComps_cons_cons, joinComps]
    | cons d L' =>
      have ih' := ih (by simp)
      rw [List.cons_append] at ih'
      show joinComps (c :: d :: (L' ++ R)) = joinComps (c :: d :: L') ++ '/' :: joinComps R
      rw [joinComps_cons_cons, ih', joinComps_cons_cons]
      simp

theorem splitSlash_joinComps (R : List Str) (hR : R ≠ [])
    (h : ∀ c ∈ R, ('/' : Char) ∉ c) : splitSlash (joinComps R) = R := by
  induction R with
  | nil => exact absurd rfl hR
  | cons c R ih =>
    cases R with
    | nil => exact splitSlash_no_slash c (h c (by simp))
    | cons d R' =>
      rw [joinComps_cons_cons, splitSlash_append,
        splitSlash_no_slash c (h c (by simp)),
        ih (by simp) (fun x hx => h x (by simp [hx]))]
      rfl

theorem normStep_app (i : Bool) (acc : List Str) (c : Str)
    (h1 : c ≠ []) (h2 : c ≠ ['.']) (h3 : c ≠ ['.', '.']) :
    normStep i acc c = acc ++ [c] := by
  unfold normStep
  rw [if_neg (by simp [h1, h2]), if_pos (Or.inl h3)]

theorem foldl_normStep (i : Bool) (R : List Str)
    (h : ∀ c ∈ R, c ≠ [] ∧ c ≠ ['.'] ∧ c ≠ ['.', '.']) :
    ∀ acc : List Str, R.foldl (normStep i) acc = acc ++ R := by
  induction R with
  | nil => simp
  | cons c R ih =>
    intro acc
    have hc := h c (by simp)
    rw [List.foldl_cons, normStep_app i acc c hc.1 hc.2.1 hc.2.2,
      ih (fun x hx => h x (by simp [hx])), List.append_assoc,
      List.singleton_append]

theorem slashCount_pos (p : Str) (h : p.head? = some '/') : 0 < slashCount p := by
  unfold slashCount
  rw [if_pos h]
  split <;> norm_num

theorem pyNormpath_suffix (s : Str) (R : List Str)
    (hhead : (s ++ '/' :: joinComps R).head? = some '/')
    (hR : R ≠ [])
    (hn : ∀ c ∈ R, (c ≠ [] ∧ c ≠ ['.'] ∧ c ≠ ['.', '.']) ∧ ('/' : Char) ∉ c) :
    ∃ pre, pyNormpath (s ++ '/' :: joinComps R) = pre ++ '/' :: joinComps R := by
  have hne : s ++ '/' :: joinComps R ≠ [] := by
    intro hx
    rw [hx] at hhead
    simp at hhead
  have hk : 0 < slashCount (s ++ '/' :: joinComps R) :=
    slashCount_pos _ hhead
  obtain ⟨k', hk'⟩ : ∃ k', slashCount (s ++ '/' :: joinComps R) = k' + 1 :=
    ⟨slashCount (s ++ '/' :: joinComps R) - 1, by omega⟩
  have hsplit : splitSlash (s ++ '/' :: joinComps R) = splitSlash s ++ R := by
    rw [splitSlash_append, splitSlash_joinComps R hR (fun c hc => (hn c hc).2)]
  unfold pyNormpath
  rw [if_neg hne, hsplit, List.foldl_append,
    foldl_normStep _ R (fun c hc => (hn c hc).1), hk']
  unfold normOut
  rcases (splitSlash s).foldl (normStep _) [] with _ | ⟨l, L'⟩
  · refine ⟨List.replicate k' '/', ?_⟩
    rw [List.nil_append, List.replicate_succ']
    rw [if_neg (by simp)]
    simp
  · refine ⟨List.replicate (k' + 1) '/' ++ joinComps (l :: L'), ?_⟩
    rw [joinComps_append (l :: L') R (by simp) hR]
    rw [if_neg (by simp [List.replicate_succ])]
    simp

theorem pyNormpath_head (p : Str) (h : p.head? = some '/') :
    (pyNormpath p).head? = some '/' := by
  have hne : p ≠ [] := by
    intro hx
    rw [hx] at h
    simp at h
  obtain ⟨k', hk'⟩ : ∃ k', slashCount p = k' + 1 :=
    ⟨slashCount p - 1, by have := slashCount_pos p h; omega⟩
  unfold pyNormpath
  rw [if_neg hne, hk']
  unfold normOut
  simp [List.replicate_succ]

theorem pyAbspath_of_abs (cwd p : Str) (h : p.head? = some '/') :
    pyAbspath cwd p = pyNormpath p := by
  unfold pyAbspath
  rw [if_pos h]

theorem pyAbspath_head (cwd p : Str) (h : cwd.head? = some '/') :
    (pyAbspath cwd p).head? = some '/' := by
  unfold pyAbspath
  by_cases hp : p.head? = some '/'
  · rw [if_pos hp]
    exact pyNormpath_head p hp
  · rw [if_neg hp]
    apply pyNormpath_head
    unfold pyJoin
    rw [if_neg hp]
    cases cwd with
    | nil => simp at h
    | cons c cs =>
      split
      · simpa using h
      · simpa using h

theorem getLast?_slash_decomp (l : Str) (h : l.getLast? = some '/') :
    ∃ D, l = D ++ ['/'] := by
  induction l with
  | nil => simp at h
  | cons c l ih =>
    cases l with
    | nil =>
      simp at h
      exact ⟨[], by simp [h]⟩
    | cons d l' =>
      rw [List.getLast?_cons_cons] at h
      obtain ⟨D, hD⟩ := ih h
      exact ⟨c :: D, by simp [hD]⟩

theorem pyJoin_no_trailing (a b : Str) (hb : b.head? ≠ some '/')
    (ha : a ≠ []) (hal : a.getLast? ≠ some '/') : pyJoin a b = a ++ '/' :: b := by
  unfold pyJoin
  rw [if_neg hb, if_neg (not_or.mpr ⟨ha, hal⟩)]

theorem pyJoin_trailing (a b : Str) (hb : b.head? ≠ some '/')
    (hal : a.getLast? = some '/') : pyJoin a b = a ++ b := by
  unfold pyJoin
  rw [if_neg hb, if_pos (Or.inr hal)]

theorem join_join_abspath_suffix (cwd base rel leaf : Str) (R : List Str)
    (hb : base.head? = some '/')
    (hform : rel ++ '/' :: leaf = joinComps R)
    (hrh : rel.head? ≠ some '/') (hrl : rel.getLast? ≠ some '/') (hrne : rel ≠ [])
    (hlh : leaf.head? ≠ some '/')
    (hR : R ≠ [])
    (hn : ∀ c ∈ R, (c ≠ [] ∧ c ≠ ['.'] ∧ c ≠ ['.', '.']) ∧ ('/' : Char) ∉ c) :
    ∃ pre, pyAbspath cwd (pyJoin (pyJoin base rel) leaf) = pre ++ '/' :: joinComps R := by
  have hbne : base ≠ [] := by
    intro hx
    rw [hx] at hb
    simp at hb
  by_cases hbl : base.getLast? = some '/'
  · obtain ⟨D, hD⟩ := getLast?_slash_decomp base hbl
    have hX : pyJoin base rel = base ++ rel := pyJoin_trailing base rel hrh hbl
    have hXlast : (pyJoin base rel).getLast? = rel.getLast? := by
      rw [hX]
      exact List.getLast?_append_of_ne_nil _ hrne
    have hXne : pyJoin base rel ≠ [] := by
      rw [hX]
      simp [hbne]
    have hY : pyJoin (pyJoin base rel) leaf = D ++ '/' :: joinComps R := by
      rw [pyJoin_no_trailing _ leaf hlh hXne (by rw [hXlast]; exact hrl), hX, hD,
        ← hform]
      simp
    have hhead : (D ++ '/' :: joinComps R).head? = some '/' := by
      rw [← hY, pyJoin_no_trailing _ leaf hlh hXne (by rw [hXlast]; exact hrl), hX]
      cases base with
      | nil => exact absurd rfl hbne
      | cons c cs => simpa using hb
    rw [hY, pyAbspath_of_abs cwd _ hhead]
    exact pyNormpath_suffix D R hhead hR hn
  · have hX : pyJoin base rel = base ++ '/' :: rel :=
      pyJoin_no_trailing base rel hrh hbne hbl
    have hXlast : (pyJoin base rel).getLast? = rel.getLast? := by
      rw [hX]
      have hsplit : base ++ '/' :: rel = (base ++ ['/']) ++ rel := by simp
      rw [hsplit]
      exact List.getLast?_append_of_ne_nil _ hrne
    have hXne : pyJoin base rel ≠ [] := by
      rw [hX]
      simp [hbne]
    have hY : pyJoin (pyJoin base rel) leaf = base ++ '/' :: joinComps R := by
      rw [pyJoin_no_trailing _ leaf hlh hXne (by rw [hXlast]; exact hrl), hX,
        ← hform]
      simp
    have hhead : (base ++ '/' :: joinComps R).head? = some '/' := by
      cases base with
      | nil => exact absurd rfl hbne
      | cons c cs => simpa using hb
    rw [hY, pyAbspath_of_abs cwd _ hhead]
    exact pyNormpath_suffix base R hhead hR hn

/-- Claim C1: with `store_by = "id"` and default options the disk backend
constructs `{filesRoot}/{shard}/dataset_{id}.dat`; in particular, for every
files root the path for id=1 ends with `/000/dataset_1.dat` and the path
for id=1234567 ends with `/001/234/567/dataset_1234567.dat`. -/
theorem disk_default_path_shards (fp cwd : Str) (ed : List (Str × Str)) (cos : Bool)
    (hcwd : cwd.head? = some '/') :
    (∃ p, construct_path ⟨fp, ed, cos, cwd⟩ ⟨some 1, none⟩ false defaultOpts = .ok p ∧
      ∃ pre, p = pre ++ "/000/dataset_1.dat".toList) ∧
    (∃ p, construct_path ⟨fp, ed, cos, cwd⟩ ⟨some 1234567, none⟩ false defaultOpts = .ok p ∧
      ∃ pre, p = pre ++ "/001/234/567/dataset_1234567.dat".toList) := by
  constructor
  · have hcp : construct_path ⟨fp, ed, cos, cwd⟩ ⟨some 1, none⟩ false defaultOpts =
        .ok (pyAbspath cwd (pyJoin (pyJoin (pyAbspath cwd fp) "000".toList)
          "dataset_1.dat".toList)) := rfl
    obtain ⟨pre, hpre⟩ := join_join_abspath_suffix cwd (pyAbspath cwd fp)
      "000".toList "dataset_1.dat".toList ["000".toList, "dataset_1.dat".toList]
      (pyAbspath_head cwd fp hcwd) rfl (by decide) (by decide) (by decide)
      (by decide) (by decide) (by decide)
    exact ⟨_, hcp, pre, hpre⟩
  · have hcp : construct_path ⟨fp, ed, cos, cwd⟩ ⟨some 1234567, none⟩ false defaultOpts =
        .ok (pyAbspath cwd (pyJoin (pyJoin (pyAbspath cwd fp) "001/234/567".toList)
          "dataset_1234567.dat".toList)) := rfl
    obtain ⟨pre, hpre⟩ := join_join_abspath_suffix cwd (pyAbspath cwd fp)
      "001/234/567".toList "dataset_1234567.dat".toList
      ["001".toList, "234".toList, "567".toList, "dataset_1234567.dat".toList]
      (pyAbspath_head cwd fp hcwd) rfl (by decide) (by decide) (by decide)
      (by decide) (by decide) (by decide)
    exact ⟨_, hcp, pre, hpre⟩

/-- Witness for claim C1 at files root `/data` and working directory
`/cwd`. -/
theorem disk_default_path_shards_witness :
    (∃ p, construct_path ⟨"/data".toList, [], false, "/cwd".toList⟩ ⟨some 1, none⟩
        false defaultOpts = .ok p ∧ ∃ pre, p = pre ++ "/000/dataset_1.dat".toList) ∧
    (∃ p, construct_path ⟨"/data".toList, [], false, "/cwd".toList⟩ ⟨some 1234567, none⟩
        false defaultOpts = .ok p ∧ ∃ pre, p = pre ++ "/001/234/567/dataset_1234567.dat".toList) :=
  disk_default_path_shards "/data".toList "/cwd".toList [] false (by decide)

/-- Claim C2 (amended): path construction raises `InvalidObject` exactly
when a truthy `extra_dir` differs from its normalized form or a truthy
`alt_name` fails the safe-relative-path check; on rejection `create`
propagates the error untouched, so no file is created.  A `..` component
that is already in normal form (for example a leading `../` in
`extra_dir`) is NOT rejected. -/
theorem construct_path_validation (fp cwd : Str) (ed : List (Str × Str)) (cos : Bool)
    (obj : StorableObject) (n : Nat) (hobj : obj.oid = some n) (o : CPOpts) :
    (∀ old : Bool, construct_path ⟨fp, ed, cos, cwd⟩ obj old o = .error .objectInvalid ↔
      extraDirBad o.extraDir = true ∨ altNameBad o.altName = true) ∧
    (∀ fs : FS, extraDirBad o.extraDir = true ∨ altNameBad o.altName = true →
      disk_create ⟨fp, ed, cos, cwd⟩ fs obj o = .error .objectInvalid) := by
  have key : ∀ old : Bool, construct_path ⟨fp, ed, cos, cwd⟩ obj old o = .error .objectInvalid ↔
      extraDirBad o.extraDir = true ∨ altNameBad o.altName = true := by
    intro old
    by_cases he : extraDirBad o.extraDir
    · simp [construct_path, he]
    · by_cases ha : altNameBad o.altName
      · simp [construct_path, he, ha]
      · simp only [construct_path, he, ha, if_false, Bool.false_eq_true]
        constructor
        · intro hcontra
          by_cases hd : o.dirOnly <;>
            simp [hd, get_object_id, hobj] at hcontra
        · intro hcontra
          rcases hcontra with h | h
          · exact absurd h (by simp [he])
          · exact absurd h (by simp [ha])
  refine ⟨key, ?_⟩
  intro fs hcond
  have h1 := (key true).mpr hcond
  have h0 := (key false).mpr hcond
  unfold disk_create disk_exists
  cases hcos : cos <;> simp [hcos] at h1 h0 ⊢ <;> simp [h1, h0]

/-- Claim C2 counterexample: the extra dir `../../x` contains `..`
components, yet path construction succeeds (the value equals its
normalized form) and the resulting path `/x/dataset_1.dat` escapes the
`/data` root. -/
theorem construct_path_dotdot_escape :
    (['.', '.'] ∈ splitSlash "../../x".toList) ∧
    construct_path conf0 obj1 false optsDotDot = .ok "/x/dataset_1.dat".toList := by
  exact ⟨by decide, by decide⟩

/-- Witness for claim C2: the non-normalized extra dir `a/..` is rejected
with `InvalidObject`, and `create` propagates the rejection. -/
theorem construct_path_validation_witness :
    (construct_path conf0 obj1 false optsNonNorm = .error .objectInvalid ↔
      extraDirBad optsNonNorm.extraDir = true ∨ altNameBad optsNonNorm.altName = true) ∧
    disk_create conf0 fs0 obj1 optsNonNorm = .error .objectInvalid := by
  refine ⟨(construct_path_validation "/data".toList "/cwd".toList [] false obj1 1 rfl
    optsNonNorm).1 false, ?_⟩
  exact (construct_path_validation "/data".toList "/cwd".toList [] false obj1 1 rfl
    optsNonNorm).2 fs0 (Or.inl (by decide))

/-- Claim C3 (code bug): on media `[{order 1, quota 1000, usage 900},
{order -1, quota 1000, usage 0}]` with no instance quota and size 0, the
first selection returns the order=1 medium; after the backend raises
`IOError` the wrapper re-enters selection with `from_order = 1`, but the
next selection returns the order=1 medium again — not the order=-1 one —
and the full dispatch loop calls only the order=1 backend three times. -/
theorem user_media_repick_same_medium :
    pick_a_plugged_media [mediumHigh, mediumLow] none 0 false = .ok (some mediumHigh) ∧
    pick_a_plugged_media [mediumHigh, mediumLow] (some 1) 0 false = .ok (some mediumHigh) ∧
    pick_a_plugged_media [mediumHigh, mediumLow] (some 1) 0 false ≠ .ok (some mediumLow) ∧
    user_method_call [mediumHigh, mediumLow] false bmScenario bcOk =
      (none, [.dispatchMethod 1, .dispatchMethod 1, .dispatchMethod 1]) := by
  exact ⟨by decide, by decide, by decide, by decide⟩

/-- Claim C4: `DistributedObjectStore.create` on an object without an
`object_store_id` records an id drawn from the live weight sequence (the
uniform random draw is modelled by the universally quantified index `k`),
persists it through the session hook and only then delegates the creation
to the chosen backend; an empty weight sequence raises `ObjectInvalid`
with no child `create` invoked. -/
theorem distributed_create_routes (bs : List (String × DChild))
    (obj : StorableObject) (k : Nat) (hobj : obj.objectStoreId = none) :
    (dist_create bs [] true obj k = (.error .objectInvalid, [])) ∧
    (∀ weighted : List String, ∀ cid : String,
      chooseWeighted weighted k = some cid → (bs.lookup cid).isSome →
      dist_create bs weighted true obj k =
        (.ok { obj with objectStoreId := some cid },
         [.sessionPersist cid, .childCreate cid])) := by
  constructor
  · simp [dist_create, dist_create_inner, hobj, chooseWeighted]
  · intro weighted cid hch hlk
    obtain ⟨c, hc⟩ := Option.isSome_iff_exists.mp hlk
    simp [dist_create, dist_create_inner, hobj, hch, hc]

/-- Witness for claim C4 at a one-child store. -/
theorem distributed_create_routes_witness :
    (dist_create bsNone [] true obj1 5 = (.error .objectInvalid, [])) ∧
    dist_create bsNone ["a"] true obj1 0 =
      (.ok { obj1 with objectStoreId := some "a" },
       [.sessionPersist "a", .childCreate "a"]) :=
  ⟨(distributed_create_routes bsNone obj1 5 rfl).1,
   (distributed_create_routes bsNone obj1 0 rfl).2 ["a"] "a" rfl rfl⟩

/-- Claim C5: for a non-`create` operation on an object whose
`object_store_id` is absent or unknown, the distributed store scans its
children in order; the first child holding the object has its id adopted
onto the object and persisted via the session hook before the call is
dispatched to it, and when no child holds the object an operation whose
default is an exception raises `ObjectNotFound`. -/
theorem distributed_lookup_fallback (bs : List (String × DChild))
    (obj : StorableObject) (die : Bool)
    (hobj : obj.objectStoreId = none ∨
      ∃ s, obj.objectStoreId = some s ∧ bs.lookup s = none) :
    (∀ cid c, bs.find? (fun b => b.2.cexists) = some (cid, c) →
      dist_call_method bs true die obj =
        (.ok (some cid), { obj with objectStoreId := some cid },
         [.sessionPersist cid, .childCall cid])) ∧
    (bs.find? (fun b => b.2.cexists) = none →
      dist_call_method bs true true obj = (.error .objectNotFound, obj, [])) := by
  have hstore : dist_get_store_id_for bs true obj = dist_scan bs true obj := by
    rcases hobj with h | ⟨s, hs, hl⟩
    · unfold dist_get_store_id_for
      rw [h]
    · unfold dist_get_store_id_for
      rw [hs]
      simp [hl]
  constructor
  · intro cid c hf
    unfold dist_call_method
    rw [hstore]
    unfold dist_scan
    rw [hf]
    simp
  · intro hf
    unfold dist_call_method
    rw [hstore]
    unfold dist_scan
    rw [hf]
    simp

/-- Witness for claim C5: adoption from the second child, and
`ObjectNotFound` when no child holds the object. -/
theorem distributed_lookup_fallback_witness :
    (dist_call_method bsPair true true objFive =
      (.ok (some "b"), { objFive with objectStoreId := some "b" },
       [.sessionPersist "b", .childCall "b"])) ∧
    dist_call_method bsNone true true objFive = (.error .objectNotFound, objFive, []) :=
  ⟨(distributed_lookup_fallback bsPair objFive true (Or.inl rfl)).1 "b" ⟨true⟩ rfl,
   (distributed_lookup_fallback bsNone objFive true (Or.inl rfl)).2 rfl⟩

/-- Membership in the working copy after one monitor pass: an id survives
iff it was in the starting sequence and its backend is not over the cap. -/
theorem monitor_tick_mem (ids : List String) (usage mp : String → ℚ) (g : ℚ) :
    ∀ (acc : List String) (x : String),
      x ∈ ids.foldl (tickStep usage mp g) acc ↔
        x ∈ acc ∧ (x ∈ ids → ¬ usage x > effective_cap (mp x) g) := by
  induction ids with
  | nil =>
    intro acc x
    simp
  | cons i ids ih =>
    intro acc x
    rw [List.foldl_cons, ih]
    unfold tickStep
    by_cases hover : usage i > effective_cap (mp i) g
    · rw [if_pos hover]
      by_cases hx : x = i
      · subst hx
        simp [List.mem_filter, hover]
      · simp only [List.mem_filter, bne_iff_ne, List.mem_cons]
        constructor
        · rintro ⟨⟨hacc, _⟩, hrest⟩
          exact ⟨hacc, fun hm => hrest (hm.resolve_left hx)⟩
        · rintro ⟨hacc, hrest⟩
          exact ⟨⟨hacc, hx⟩, fun hm => hrest (Or.inr hm)⟩
    · rw [if_neg hover]
      by_cases hx : x = i
      · subst hx
        simp only [List.mem_cons]
        constructor
        · rintro ⟨hacc, hrest⟩
          exact ⟨hacc, fun _ => hover⟩
        · rintro ⟨hacc, hrest⟩
          exact ⟨hacc, fun hm => hrest (Or.inr hm)⟩
      · simp only [List.mem_cons]
        constructor
        · rintro ⟨hacc, hrest⟩
          exact ⟨hacc, fun hm => hrest (hm.resolve_left hx)⟩
        · rintro ⟨hacc, hrest⟩
          exact ⟨hacc, fun hm => hrest (Or.inr hm)⟩

/-- Claim C6: each monitor tick recomputes the live weight sequence from
the immutable original snapshot, removing a backend's id exactly when its
usage exceeds the effective cap (`max_percent_full` if nonzero, else the
global cap); a backend over the cap is absent after the tick, and once its
usage is back under the cap the next tick restores it whenever it was in
the original sequence, independently of the previous live value. -/
theorem capacity_monitor_prunes (original ids : List String)
    (usage1 usage2 mp : String → ℚ) (g : ℚ) (b : String) (hb : b ∈ ids) :
    (∀ x, x ∈ monitor_tick original ids usage1 mp g ↔
      x ∈ original ∧ (x ∈ ids → ¬ usage1 x > effective_cap (mp x) g)) ∧
    (usage1 b > effective_cap (mp b) g → b ∉ monitor_tick original ids usage1 mp g) ∧
    (¬ usage2 b > effective_cap (mp b) g →
      (b ∈ monitor_tick original ids usage2 mp g ↔ b ∈ original)) := by
  refine ⟨fun x => monitor_tick_mem ids usage1 mp g original x, ?_, ?_⟩
  · intro hover hmem
    exact ((monitor_tick_mem ids usage1 mp g original b).mp hmem).2 hb hover
  · intro hunder
    constructor
    · intro hmem
      exact ((monitor_tick_mem ids usage2 mp g original b).mp hmem).1
    · intro hmem
      exact (monitor_tick_mem ids usage2 mp g original b).mpr ⟨hmem, fun _ => hunder⟩

/-- Witness for claim C6: backend `b` at 99% with cap 90 is pruned, and
reappears on a tick in which it is back at 50%. -/
theorem capacity_monitor_prunes_witness :
    ("b" ∉ monitor_tick ["a", "a", "b"] ["a", "b"] usageOver capsZero 90) ∧
    ("b" ∈ monitor_tick ["a", "a", "b"] ["a", "b"] usageUnder capsZero 90 ↔
      "b" ∈ ["a", "a", "b"]) :=
  ⟨(capacity_monitor_prunes ["a", "a", "b"] ["a", "b"] usageOver usageUnder capsZero 90 "b"
      (by decide)).2.1 (by decide),
   (capacity_monitor_prunes ["a", "a", "b"] ["a", "b"] usageOver usageUnder capsZero 90 "b"
      (by decide)).2.2 (by decide)⟩

/-- `get_filename` raises `ObjectNotFound` precisely when `exists` is
false: the two probe exactly the same paths. -/
theorem disk_filename_of_exists (conf : DiskConf) (fs : FS) (obj : StorableObject)
    (o : CPOpts) :
    (disk_exists conf fs obj o = .ok false →
      disk_get_filename conf fs obj o = .error .objectNotFound) ∧
    (∀ p, disk_get_filename conf fs obj o = .ok p →
      disk_exists conf fs obj o = .ok true) := by
  unfold disk_exists disk_get_filename
  by_cases hcos : conf.check_old_style
  · rw [if_pos hcos, if_pos hcos]
    rcases construct_path conf obj true o with e | p
    · simp
    · by_cases hp : fs.pexists p
      · simp [hp]
      · simp only [hp]
        rcases construct_path conf obj false o with e | q
        · simp
        · by_cases hq : fs.pexists q <;> simp [hp, hq]
  · rw [if_neg hcos, if_neg hcos]
    rcases construct_path conf obj false o with e | q
    · simp
    · by_cases hq : fs.pexists q <;> simp [hq]

/-- Claim C7 (amended): `delete` raises `ObjectNotFound` for an absent
object, because the `get_filename` call precedes the `OSError` handler;
for a present object it never raises: it removes the directory recursively
when `entire_dir` is combined with `extra_dir`/`obj_dir`, otherwise the
single file, returning `True` on success and `False` when the removal
raises an `OSError`. -/
theorem disk_delete_behaviour (conf : DiskConf) (fs : FS) (obj : StorableObject)
    (ed : Bool) (o : CPOpts) :
    (disk_exists conf fs obj o = .ok false →
      disk_delete conf fs obj ed o = .error .objectNotFound) ∧
    (∀ p, disk_get_filename conf fs obj o = .ok p →
      disk_delete conf fs obj ed o =
        .ok (if ed && (optTruthy o.extraDir || o.objDir) then fs.rmtreeOk p
             else fs.removeOk p)) := by
  constructor
  · intro h
    unfold disk_delete
    rw [(disk_filename_of_exists conf fs obj o).1 h]
  · intro p hp
    have hex : disk_exists conf fs obj o = .ok true :=
      (disk_filename_of_exists conf fs obj o).2 p hp
    unfold disk_delete
    rw [hp]
    by_cases hed : ed && (optTruthy o.extraDir || o.objDir)
    · simp [hed]
    · simp [hed, hex]

/-- Claim C7 counterexample: `delete` on an absent object raises
`ObjectNotFound` instead of returning `False`. -/
theorem disk_delete_raises :
    disk_delete conf0 fs0 obj1 false defaultOpts = .error .objectNotFound := by
  decide

/-- Witness for claim C7: deleting a present object returns the success
of `os.remove`. -/
theorem disk_delete_behaviour_witness :
    disk_delete conf0 fsAll obj1 false defaultOpts =
      .ok (fsAll.removeOk "/data/000/dataset_1.dat".toList) :=
  (disk_delete_behaviour conf0 fsAll obj1 false defaultOpts).2
    "/data/000/dataset_1.dat".toList (by decide)

/-- Claim C8 (code bug): on an absent object `empty` returns `True`
(`size` maps absence to 0) instead of raising `ObjectNotFound` as the
`ObjectStore.empty` contract requires. -/
theorem disk_empty_absent_true :
    disk_exists conf0 fs0 obj1 defaultOpts = .ok false ∧
    disk_size conf0 fs0 obj1 defaultOpts = .ok 0 ∧
    disk_empty conf0 fs0 obj1 defaultOpts = .ok true := by
  exact ⟨by decide, by decide, by decide⟩

/-- Claim C9 (code bug): with `create=False` on an absent object,
`update_from_file` returns silently with no filesystem effect instead of
raising `ObjectNotFound`; with `create=True` it creates the object first
and then copies the source file into the object's path. -/
theorem disk_update_from_file_silent :
    disk_update_from_file conf0 fs0 obj1 (some "src.dat".toList) false false defaultOpts
      = .ok (fs0, []) ∧
    (disk_update_from_file conf0 fs0 obj1 (some "src.dat".toList) true false
        defaultOpts).map (fun r => r.2)
      = .ok [.createdFile "/data/000/dataset_1.dat".toList,
             .copied "src.dat".toList "/data/000/dataset_1.dat".toList] := by
  exact ⟨rfl, by decide⟩

/-- Every iteration of the wrapper loop under an always-`None` selection
leaves `rtv` as `None` and dispatches nothing but the instance-default
`create`. -/
theorem umc_loop_null (media : List PluggedMedium) (enough : Bool)
    (bm bc : Nat → Except Unit Unit)
    (H : ∀ fo, pick_a_plugged_media media fo 0 enough = .ok none) :
    ∀ (n : Nat) (fo : Option Int),
      (umc_loop media enough bm bc n fo).1 = none ∧
      ∀ ev ∈ (umc_loop media enough bm bc n fo).2, ev = UEv.dispatchCreate 0 := by
  intro n
  induction n with
  | zero =>
    intro fo
    exact ⟨rfl, by simp [umc_loop]⟩
  | succ i ih =>
    intro fo
    unfold umc_loop
    rw [H fo]
    by_cases hz : media.any (fun mm => mm.mid = 0)
    · rw [if_pos hz]
      rcases bc 0 with e | u
      · refine ⟨(ih (some 0)).1, ?_⟩
        intro ev hev
        rcases List.mem_cons.mp hev with rfl | h
        · rfl
        · exact (ih (some 0)).2 ev h
      · exact ⟨rfl, by simp⟩
    · rw [if_neg hz]
      exact ih (some 0)

/-- Claim C10: whenever plugged-media selection returns `None`, the
wrapper invokes `create` on `self.backends[0]` instead of the requested
method (a lookup that raises `KeyError` when no medium has id 0, caught by
the generic handler), the requested method is dispatched on no medium
backend, and the wrapper's overall result is `None`. -/
theorem user_media_default_null (media : List PluggedMedium) (enough : Bool)
    (bm bc : Nat → Except Unit Unit)
    (H : ∀ fo, pick_a_plugged_media media fo 0 enough = .ok none) :
    (user_method_call media enough bm bc).1 = none ∧
    ∀ ev ∈ (user_method_call media enough bm bc).2, ev = UEv.dispatchCreate 0 :=
  umc_loop_null media enough bm bc H (1 + media.length) none

/-- Witness for claim C10 at an empty media list. -/
theorem user_media_default_null_witness :
    (user_method_call [] true bmScenario bcOk).1 = none ∧
    ∀ ev ∈ (user_method_call [] true bmScenario bcOk).2, ev = UEv.dispatchCreate 0 :=
  user_media_default_null [] true bmScenario bcOk (fun fo => rfl)
